import Mathlib

/-!
Verification of the cam-reverse camera bridge core.

The development shallowly embeds the parts of the source that the
properties below are about:

* the UDP discovery pipeline (`discovery.ts` handleIncomingPunch, the
  per-run de-duplication handler of `mqtt.ts`, and the
  cleanup / timer state machine of `discovery.ts` discoverDevices);
* the frame annotation step and the orientation tables of the HTTP
  server (`http_server.ts` and the unnamed server module);
* the per-device MJPEG subscriber fan-out;
* the rotate / mirror settings routes.

Functions that live in repository files not present in the source tree
(`impl.js`, `datatypes.js`, `exif.js`) are modelled from the
specification; each such definition says so in its doc comment.
-/

/-! ## Discovery: packets and the incoming-punch handler -/

/-- Modelled from the spec: the 2-byte command-id read of the DataView
extension of impl.js (impl.js is not in the source tree).  The spec only
says that inbound packets are filtered by a 2-byte command-id
prefix; we read the first two bytes big-endian, and a packet shorter
than two bytes has no command id. -/
def readU16 : List Nat → Option Nat
  | a :: b :: _ => some (a * 256 + b)
  | _ => none

/-- Modelled from the spec: the PunchPkt command id of datatypes.js
(datatypes.js is not in the source tree).  The claims only compare
command ids for equality, so the concrete value is immaterial. -/
def Commands.PunchPkt : Nat := 0xf141

/-- Device identity decoded from a PunchPkt, as used by the discovery
pipeline (impl.js DevSerial); identity is the devId string. -/
structure DevSerial where
  devId : String
deriving DecidableEq, Repr

/-- Modelled from the spec: parse_PunchPkt of impl.js (not in the source
tree) decodes the payload after the command id into a device
descriptor and throws on a malformed payload.  We model the payload
bytes after the command id as the device id and a missing payload as
the malformed case. -/
def parse_PunchPkt (msg : List Nat) : Option DevSerial :=
  if msg.length ≤ 2 then none
  else some ⟨String.mk ((msg.drop 2).map Char.ofNat)⟩

/-- The part of the ambient configuration the discovery pipeline reads
(settings.js is not in the source tree; the spec calls this the static
blacklist). -/
structure DiscoveryConfig where
  blacklisted_ips : List String
deriving DecidableEq, Repr

/-- An inbound UDP datagram: payload bytes plus the source address of
the RemoteInfo. -/
structure Packet where
  msg : List Nat
  addr : String
deriving DecidableEq, Repr

/-- discovery.ts handleIncomingPunch (lines 10-32): read the 2-byte
command id, ignore anything that is not a PunchPkt, drop blacklisted
sources, then parse; a parse error is caught and produces no event.
The returned value models the raw "discover" emission on the run
emitter. -/
def handleIncomingPunch (cfg : DiscoveryConfig) (pkt : Packet) : Option DevSerial :=
  match readU16 pkt.msg with
  | none => none
  | some cmd_id =>
    if cmd_id ≠ Commands.PunchPkt then none
    else if pkt.addr ∈ cfg.blacklisted_ips then none
    else parse_PunchPkt pkt.msg

/-- Events a discovery run can raise towards its consumer, in the
spec vocabulary: discovered, closed, error. -/
inductive DiscoveryEvent
  | discovered (id : String)
  | closed
  | error
deriving DecidableEq, Repr

/-- One inbound datagram through the full per-run pipeline:
handleIncomingPunch followed by the devicesDiscovered de-duplication
handler of mqtt.ts (lines 159-166).  The state is the set of device
ids already seen in this run; a repeated id raises nothing. -/
def processPacket (cfg : DiscoveryConfig) (seen : List String) (pkt : Packet) :
    List String × List DiscoveryEvent :=
  match handleIncomingPunch cfg pkt with
  | none => (seen, [])
  | some dev =>
    if dev.devId ∈ seen then (seen, [])
    else (dev.devId :: seen, [DiscoveryEvent.discovered dev.devId])

/-- The events raised while a run whose seen-set is `seen` processes a
sequence of inbound datagrams. -/
def runEvents (cfg : DiscoveryConfig) (seen : List String) : List Packet → List DiscoveryEvent
  | [] => []
  | p :: ps =>
    let r := processPacket cfg seen p
    r.2 ++ runEvents cfg r.1 ps

/-! ## Discovery: the run lifecycle state machine

discovery.ts discoverDevices keeps four pieces of mutable run state:
the discoveryRunning flag, the 3-second resend interval, the 10-second
overall timeout, and the socket.  cleanup (lines 106-126) is guarded by
discoveryRunning, cancels both timers and asks the socket to close; the
socket close event handler (lines 129-137) nullifies the socket, clears
the timers again and emits the close event; the timeout callback
(lines 88-91) and the stop handler (lines 140-143) both call cleanup. -/

/-- Mutable state of one discovery run in discovery.ts discoverDevices:
discoveryRunning, whether the resend interval and the overall timeout
are still pending, whether the socket is still open, whether a socket
close has been requested but its close event not yet delivered, and how
many close events were emitted on the run emitter. -/
structure RunState where
  running : Bool
  intervalActive : Bool
  timeoutActive : Bool
  sockOpen : Bool
  closePending : Bool
  closeEvents : Nat
deriving DecidableEq, Repr

/-- Run state right after the listening handler armed both timers
(discovery.ts lines 84-91). -/
def initRun : RunState :=
  { running := true, intervalActive := true, timeoutActive := true,
    sockOpen := true, closePending := false, closeEvents := 0 }

/-- discovery.ts cleanup (lines 106-126): a no-op once discoveryRunning
is false; otherwise clears the flag, cancels both timers, and either
requests the socket close (close event emitted later by the socket
close handler) or, when the socket is already gone, emits close
directly. -/
def cleanup (s : RunState) : RunState :=
  if s.running then
    { running := false, intervalActive := false, timeoutActive := false,
      sockOpen := s.sockOpen,
      closePending := s.closePending || s.sockOpen,
      closeEvents := if s.sockOpen then s.closeEvents else s.closeEvents + 1 }
  else s

/-- discovery.ts socket close handler (lines 129-137): nullifies the
socket, clears both timers, forces discoveryRunning to false and emits
the close event. -/
def sockCloseHandler (s : RunState) : RunState :=
  { running := false, intervalActive := false, timeoutActive := false,
    sockOpen := false, closePending := false,
    closeEvents := s.closeEvents + 1 }

/-- External triggers that can reach the run: the overall timeout
firing (only possible while that timer is still pending) and a stop
signal on the emitter (discovery.ts lines 140-143); both call
cleanup. -/
inductive RunTrigger
  | timeoutFire
  | stop
deriving DecidableEq, Repr

/-- Effect of one trigger on the run state. -/
def stepTrigger (s : RunState) : RunTrigger → RunState
  | RunTrigger.timeoutFire => if s.timeoutActive then cleanup s else s
  | RunTrigger.stop => cleanup s

/-- Asynchronous delivery of the socket close event: happens exactly
when a close was requested and the socket is still open. -/
def deliverSockClose (s : RunState) : RunState :=
  if s.closePending && s.sockOpen then sockCloseHandler s else s

/-- A full run trace: some triggers fire, then the pending socket close
event (if any) is delivered, then possibly more triggers fire. -/
def runTrace (ts1 ts2 : List RunTrigger) : RunState :=
  ts2.foldl stepTrigger (deliverSockClose (ts1.foldl stepTrigger initRun))

/-- States a discovery run can actually be in: once the run is stopped
its timers are cancelled, and while it is running the socket is still
open (the socket is only torn down by cleanup or the close handler,
both of which also stop the run). -/
def RunInv (s : RunState) : Prop :=
  (s.running = false → s.intervalActive = false ∧ s.timeoutActive = false) ∧
  (s.running = true → s.sockOpen = true)

/-! ## Frame annotation -/

/-- EXIF orientation table for the non-mirrored case
(http_server.ts line 63, unnamed server module line 22). -/
def oMap : List Nat := [1, 8, 3, 6]

/-- EXIF orientation table for the mirrored case
(http_server.ts line 63, unnamed server module line 23). -/
def oMapMirror : List Nat := [2, 7, 4, 5]

/-- Modelled from the spec: createExifOrientation of exif.js (not in
the source tree) precomputes, for an orientation code, a ready-to-splice
EXIF marker segment carrying that code.  We model the segment as an
APP1 marker, a length, and the code byte. -/
def createExifOrientation (code : Nat) : List Nat :=
  [0xff, 0xe1, 0x00, 0x03, code]

/-- The eight precomputed marker segments, keyed by orientation code
(unnamed server module lines 24-26). -/
def orientations (code : Nat) : List Nat :=
  if 1 ≤ code ∧ code ≤ 8 then createExifOrientation code else []

/-- Modelled from the spec: addExifToJpeg of exif.js (not in the source
tree) rewrites a JPEG header chunk to carry the given marker segment;
we splice the segment right after the 2-byte start-of-image marker. -/
def addExifToJpeg (hdr seg : List Nat) : List Nat :=
  hdr.take 2 ++ seg ++ hdr.drop 2

/-- The orientation code the frame handler selects from the per-device
settings (unnamed server module lines 440-441, http_server.ts oMap
usage): the mirrored table when mirror is set, the plain table
otherwise, indexed by rotate. -/
def selectOrientation (rotate : Nat) (mirror : Bool) : Nat :=
  if mirror then oMapMirror.getD rotate 0 else oMap.getD rotate 0

/-- The annotation step of the frame handler (unnamed server module
lines 438-444): pick the orientation code, look up its precomputed
segment, rewrite the first chunk of the current frame with it and keep
every later chunk: [addExifToJpeg(curImage[0], seg), ...curImage.slice(1)]. -/
def annotateFrame (curImage : List (List Nat)) (rotate : Nat) (mirror : Bool) :
    List (List Nat) :=
  let code := selectOrientation rotate mirror
  let exifSegment := orientations code
  addExifToJpeg (curImage.headD []) exifSegment :: curImage.drop 1

/-- Reads the orientation code back out of an annotated header chunk:
the code byte sits after the 2-byte start-of-image marker and the
4 leading bytes of the spliced segment. -/
def extractOrientation (hdr : List Nat) : Nat :=
  hdr.getD 6 0

/-! ## Distribution: per-device MJPEG subscriber fan-out

For one device, http_server.ts keeps responses[devId], a list of open
subscriber sinks; the camera route (lines 219-229) appends a new sink
with nothing delivered yet, and the frame handler (unnamed server
module lines 446-449) writes the assembled frame to every sink
currently in the list.  A subscriber is the list of frames written to
its sink, in registration order. -/

/-- Events at one device of the distribution layer: a frame is
published, or a new video subscriber registers. -/
inductive StreamEvent
  | publish (frame : List Nat)
  | register
deriving DecidableEq, Repr

/-- One distribution event: publish writes the frame to every currently
registered sink, register appends a fresh sink that has received
nothing. -/
def distStep (subs : List (List (List Nat))) : StreamEvent → List (List (List Nat))
  | StreamEvent.publish f => subs.map (fun r => r ++ [f])
  | StreamEvent.register => subs ++ [[]]

/-- The sinks after a sequence of distribution events, starting from no
subscribers. -/
def runDist (es : List StreamEvent) : List (List (List Nat)) :=
  es.foldl distStep []

/-- The frames published by a sequence of distribution events, in
order. -/
def publishedFrames (es : List StreamEvent) : List (List Nat) :=
  es.filterMap (fun e => match e with
    | StreamEvent.publish f => some f
    | StreamEvent.register => none)

/-! ## Settings: the rotate and mirror routes -/

/-- Per-camera settings record created on discovery
(http_server.ts line 81: rotate 0, mirror false, audio true). -/
structure CameraSettings where
  rotate : Nat
  mirror : Bool
  audio : Bool
deriving DecidableEq, Repr

/-- Effect of one rotate request on a camera record
(http_server.ts line 209): rotate becomes (rotate + 1) mod 4. -/
def rotateStep (c : CameraSettings) : CameraSettings :=
  { c with rotate := (c.rotate + 1) % 4 }

/-- Effect of one mirror request on a camera record
(http_server.ts line 215): mirror is negated. -/
def mirrorStep (c : CameraSettings) : CameraSettings :=
  { c with mirror := !c.mirror }

/-- A settings request is either a rotate or a mirror toggle. -/
inductive SettingsOp
  | rotate
  | mirror
deriving DecidableEq, Repr

/-- Apply a sequence of rotate and mirror requests to one camera. -/
def applyOps (ops : List SettingsOp) (c : CameraSettings) : CameraSettings :=
  ops.foldl (fun c op => match op with
    | SettingsOp.rotate => rotateStep c
    | SettingsOp.mirror => mirrorStep c) c

/-- The camera configuration map: device id to settings
(config.cameras of settings.js, as the routes read and write it). -/
abbrev CameraConfig : Type := List (String × CameraSettings)

/-- The rotate route for a device id (http_server.ts lines 206-211):
updates the matching entry, leaves every other entry alone, and does
nothing when the device is absent. -/
def rotateReq (dev : String) (cfg : CameraConfig) : CameraConfig :=
  cfg.map (fun p => if p.1 = dev then (p.1, rotateStep p.2) else p)

/-- The mirror route for a device id (http_server.ts lines 212-217). -/
def mirrorReq (dev : String) (cfg : CameraConfig) : CameraConfig :=
  cfg.map (fun p => if p.1 = dev then (p.1, mirrorStep p.2) else p)

/-! ## Helper lemmas -/

/-- Two mirror requests on one camera record cancel. -/
theorem mirrorStep_mirrorStep (c : CameraSettings) : mirrorStep (mirrorStep c) = c := by
  cases c
  simp [mirrorStep]

/-- Four rotate requests on one camera record cancel while rotate is in
range. -/
theorem rotateStep_four (c : CameraSettings) (h : c.rotate < 4) :
    rotateStep (rotateStep (rotateStep (rotateStep c))) = c := by
  cases c with
  | mk r m a =>
    simp only [rotateStep]
    simp only [CameraSettings.mk.injEq, and_true, true_and]
    simp only at h
    omega

/-- A rotate request keeps rotate within range. -/
theorem rotateStep_lt (c : CameraSettings) : (rotateStep c).rotate < 4 := by
  simp [rotateStep]
  omega

/-- Double application of the mirror route restores the whole
configuration. -/
theorem mirrorReq_mirrorReq (dev : String) :
    ∀ cfg : CameraConfig, mirrorReq dev (mirrorReq dev cfg) = cfg
  | [] => rfl
  | ⟨p1, p2⟩ :: l => by
    have ih := mirrorReq_mirrorReq dev l
    simp only [mirrorReq, List.map_cons] at ih ⊢
    by_cases hp : p1 = dev
    · subst hp
      simp [mirrorStep_mirrorStep, ih]
    · simp [hp, ih]

/-- Four applications of the rotate route restore the whole
configuration while every rotate value is in range. -/
theorem rotateReq_four (dev : String) :
    ∀ cfg : CameraConfig, (∀ p ∈ cfg, p.2.rotate < 4) →
      rotateReq dev (rotateReq dev (rotateReq dev (rotateReq dev cfg))) = cfg
  | [], _ => rfl
  | ⟨p1, p2⟩ :: l, h => by
    have ih := rotateReq_four dev l (fun q hq => h q (List.mem_cons_of_mem _ hq))
    have hp4 : p2.rotate < 4 := h ⟨p1, p2⟩ (List.mem_cons_self _ _)
    simp only [rotateReq, List.map_cons] at ih ⊢
    simp only [List.map_map] at ih
    by_cases hp : p1 = dev
    · subst hp
      simp [ih, rotateStep_four p2 hp4]
    · simp [hp, ih]

/-- A state fixed by every trigger is fixed by any trigger sequence. -/
theorem foldl_stepTrigger_fix {s : RunState} (h : ∀ t, stepTrigger s t = s) :
    ∀ ts : List RunTrigger, ts.foldl stepTrigger s = s
  | [] => rfl
  | t :: ts => by rw [List.foldl_cons, h t]; exact foldl_stepTrigger_fix h ts

/-- From the armed state, either trigger performs the cleanup. -/
theorem stepTrigger_initRun (t : RunTrigger) : stepTrigger initRun t = cleanup initRun := by
  cases t <;> decide

/-- Once cleanup ran, further triggers change nothing. -/
theorem stepTrigger_stopped (t : RunTrigger) :
    stepTrigger (cleanup initRun) t = cleanup initRun := by
  cases t <;> decide

/-- After the socket close event was delivered, further triggers change
nothing. -/
theorem stepTrigger_closedState (t : RunTrigger) :
    stepTrigger (deliverSockClose (cleanup initRun)) t = deliverSockClose (cleanup initRun) := by
  cases t <;> decide

/-- Every sink registered before a sequence of distribution events
receives exactly its previous frames followed by every frame published
in the sequence. -/
theorem foldl_distStep_getD :
    ∀ (es : List StreamEvent) (s : List (List (List Nat))) (i : Nat), i < s.length →
      (es.foldl distStep s).getD i [] = s.getD i [] ++ publishedFrames es
  | [], s, i, _ => by simp [publishedFrames]
  | StreamEvent.publish f :: es, s, i, h => by
    rw [List.foldl_cons]
    have h2 : i < (distStep s (StreamEvent.publish f)).length := by
      simpa [distStep] using h
    rw [foldl_distStep_getD es _ i h2]
    have hm : i < (List.map (fun r => r ++ [f]) s).length := by simpa using h
    have h3 : (distStep s (StreamEvent.publish f)).getD i [] = s.getD i [] ++ [f] := by
      show (List.map (fun r => r ++ [f]) s).getD i [] = _
      rw [List.getD_eq_getElem _ _ hm, List.getD_eq_getElem _ _ h, List.getElem_map]
    rw [h3]
    simp [publishedFrames]
  | StreamEvent.register :: es, s, i, h => by
    rw [List.foldl_cons]
    have h2 : i < (distStep s StreamEvent.register).length := by
      simp only [distStep, List.length_append, List.length_cons, List.length_nil]
      omega
    rw [foldl_distStep_getD es _ i h2]
    have h3 : (distStep s StreamEvent.register).getD i [] = s.getD i [] := by
      simp only [distStep]
      exact List.getD_append _ _ _ _ h
    rw [h3]
    simp [publishedFrames]

/-- Counting lemma for the per-run discovery pipeline: processing any
datagram sequence reports a device id exactly once when the id is not
yet in the seen set and some datagram for it survives the filters, and
never reports it otherwise. -/
theorem runEvents_count (cfg : DiscoveryConfig) (id : String) :
    ∀ (pkts : List Packet) (seen : List String),
      (runEvents cfg seen pkts).count (DiscoveryEvent.discovered id) =
        if id ∉ seen ∧ ∃ p ∈ pkts, (handleIncomingPunch cfg p).map DevSerial.devId = some id
        then 1 else 0
  | [], seen => by simp [runEvents]
  | p :: ps, seen => by
    have hrec := runEvents_count cfg id ps
    rw [show runEvents cfg seen (p :: ps)
        = (processPacket cfg seen p).2 ++ runEvents cfg (processPacket cfg seen p).1 ps from rfl]
    rcases hp : handleIncomingPunch cfg p with _ | dev
    · have hpp : processPacket cfg seen p = (seen, []) := by
        simp [processPacket, hp]
      simp [hpp, hp, hrec seen]
    · by_cases hseen : dev.devId ∈ seen
      · have hpp : processPacket cfg seen p = (seen, []) := by
          simp [processPacket, hp, hseen]
        by_cases hid : dev.devId = id
        · subst hid
          simp [hpp, hp, hrec seen, hseen]
        · simp [hpp, hp, hrec seen, hid]
      · have hpp : processPacket cfg seen p
            = (dev.devId :: seen, [DiscoveryEvent.discovered dev.devId]) := by
          simp [processPacket, hp, hseen]
        by_cases hid : dev.devId = id
        · subst hid
          simp [hpp, hp, hrec (dev.devId :: seen), hseen, List.count_cons]
        · simp [hpp, hp, hrec (dev.devId :: seen), hseen, hid, Ne.symm hid,
            List.count_cons]

/-! ## Claim theorems -/

/-- C1: within one discovery run, at most one discovered event is raised
per device id: processing any inbound datagram sequence reports an id
exactly once when at least one PunchPkt for it survives the command-id,
blacklist and parse filters, and never a second time. -/
theorem spec_c1 (cfg : DiscoveryConfig) (pkts : List Packet) (id : String) :
    (runEvents cfg [] pkts).count (DiscoveryEvent.discovered id) =
      if ∃ p ∈ pkts, (handleIncomingPunch cfg p).map DevSerial.devId = some id
      then 1 else 0 := by
  rw [runEvents_count cfg id pkts []]
  simp

/-- C2: every discovery run raises the close event exactly once —
whether it ends by the overall timeout, by a stop, or by both racing in
any order and any multiplicity — and termination cancels the resend
interval, cancels the overall timeout and closes the listening
socket. -/
theorem spec_c2 (ts1 ts2 : List RunTrigger) (h : ts1 ≠ []) :
    (runTrace ts1 ts2).closeEvents = 1 ∧
    (runTrace ts1 ts2).intervalActive = false ∧
    (runTrace ts1 ts2).timeoutActive = false ∧
    (runTrace ts1 ts2).sockOpen = false ∧
    (runTrace ts1 ts2).running = false := by
  obtain ⟨t, ts, rfl⟩ : ∃ t ts, ts1 = t :: ts := by
    cases ts1 with
    | nil => exact absurd rfl h
    | cons a b => exact ⟨a, b, rfl⟩
  have h1 : runTrace (t :: ts) ts2 = deliverSockClose (cleanup initRun) := by
    rw [runTrace, List.foldl_cons, stepTrigger_initRun,
      foldl_stepTrigger_fix stepTrigger_stopped,
      foldl_stepTrigger_fix stepTrigger_closedState]
  rw [h1]
  decide

/-- Witness for C2: the timeout fires, a stale stop follows, and one
more stop arrives after the socket close event was delivered. -/
theorem spec_c2_witness :
    ([RunTrigger.timeoutFire, RunTrigger.stop] ≠ ([] : List RunTrigger)) ∧
    ((runTrace [RunTrigger.timeoutFire, RunTrigger.stop] [RunTrigger.stop]).closeEvents = 1 ∧
     (runTrace [RunTrigger.timeoutFire, RunTrigger.stop] [RunTrigger.stop]).intervalActive = false ∧
     (runTrace [RunTrigger.timeoutFire, RunTrigger.stop] [RunTrigger.stop]).timeoutActive = false ∧
     (runTrace [RunTrigger.timeoutFire, RunTrigger.stop] [RunTrigger.stop]).sockOpen = false ∧
     (runTrace [RunTrigger.timeoutFire, RunTrigger.stop] [RunTrigger.stop]).running = false) :=
  ⟨by simp, spec_c2 [RunTrigger.timeoutFire, RunTrigger.stop] [RunTrigger.stop] (by simp)⟩

/-- C3: an inbound datagram whose 2-byte command id is not the PunchPkt
id, or whose PunchPkt payload fails to parse, raises no event at all
and leaves the run's seen-state unchanged. -/
theorem spec_c3 (cfg : DiscoveryConfig) (seen : List String) (pkt : Packet)
    (h : readU16 pkt.msg ≠ some Commands.PunchPkt ∨ parse_PunchPkt pkt.msg = none) :
    processPacket cfg seen pkt = (seen, []) := by
  have hnone : handleIncomingPunch cfg pkt = none := by
    rcases hr : readU16 pkt.msg with _ | cmd
    · simp [handleIncomingPunch, hr]
    · rcases h with h | h
      · have hcmd : cmd ≠ Commands.PunchPkt := fun hc => h (by rw [hr, hc])
        simp [handleIncomingPunch, hr, hcmd]
      · by_cases hcmd : cmd = Commands.PunchPkt
        · simp [handleIncomingPunch, hr, hcmd, h]
        · simp [handleIncomingPunch, hr, hcmd]
  simp [processPacket, hnone]

/-- Witness for C3: a datagram with a wrong command id, and a PunchPkt
datagram whose payload is too short to parse; neither raises an event
nor alters the seen-state. -/
theorem spec_c3_witness :
    (readU16 [0, 0, 65] ≠ some Commands.PunchPkt ∨ parse_PunchPkt [0, 0, 65] = none) ∧
    processPacket ⟨[]⟩ [] ⟨[0, 0, 65], "198.51.100.7"⟩ = ([], []) ∧
    (readU16 [241, 65] ≠ some Commands.PunchPkt ∨ parse_PunchPkt [241, 65] = none) ∧
    processPacket ⟨[]⟩ [] ⟨[241, 65], "198.51.100.7"⟩ = ([], []) :=
  ⟨by decide,
   spec_c3 ⟨[]⟩ [] ⟨[0, 0, 65], "198.51.100.7"⟩ (by decide),
   by decide,
   spec_c3 ⟨[]⟩ [] ⟨[241, 65], "198.51.100.7"⟩ (by decide)⟩

/-- C4: an inbound PunchPkt from a blacklisted source address never
raises a discovered event, no matter what its payload holds. -/
theorem spec_c4 (cfg : DiscoveryConfig) (seen : List String) (pkt : Packet)
    (hcmd : readU16 pkt.msg = some Commands.PunchPkt)
    (hbl : pkt.addr ∈ cfg.blacklisted_ips) :
    processPacket cfg seen pkt = (seen, []) := by
  have hnone : handleIncomingPunch cfg pkt = none := by
    simp [handleIncomingPunch, hcmd, hbl]
  simp [processPacket, hnone]

/-- Witness for C4: a PunchPkt with a perfectly parseable payload from a
blacklisted address raises nothing. -/
theorem spec_c4_witness :
    readU16 [241, 65, 65, 66, 67] = some Commands.PunchPkt ∧
    "10.0.0.5" ∈ (DiscoveryConfig.mk ["10.0.0.5"]).blacklisted_ips ∧
    parse_PunchPkt [241, 65, 65, 66, 67] ≠ none ∧
    processPacket ⟨["10.0.0.5"]⟩ [] ⟨[241, 65, 65, 66, 67], "10.0.0.5"⟩ = ([], []) :=
  ⟨by decide, by decide, by decide,
   spec_c4 ⟨["10.0.0.5"]⟩ [] ⟨[241, 65, 65, 66, 67], "10.0.0.5"⟩ (by decide) (by decide)⟩

/-- C5: the EXIF orientation code the annotation step embeds in the
rewritten header equals the fixed table lookup — the non-mirrored table
indexed by rotate when mirror is off, the mirrored one when mirror is
on (so rotate 0 without mirror gives code 1, and rotate 1 with mirror
gives the mirrored table's index-1 entry). -/
theorem spec_c5 (hdr : List Nat) (cs : List (List Nat)) (rotate : Nat) (mirror : Bool)
    (hh : 2 ≤ hdr.length) (hr : rotate < 4) :
    extractOrientation ((annotateFrame (hdr :: cs) rotate mirror).headD []) =
      if mirror then oMapMirror.getD rotate 0 else oMap.getD rotate 0 := by
  obtain ⟨a, b, t, rfl⟩ : ∃ a b t, hdr = a :: b :: t := by
    cases hdr with
    | nil => exact absurd hh (by simp)
    | cons a rest =>
      cases rest with
      | nil => exact absurd hh (by simp)
      | cons b t => exact ⟨a, b, t, rfl⟩
  interval_cases rotate <;> cases mirror <;>
    simp [annotateFrame, selectOrientation, orientations, createExifOrientation,
      addExifToJpeg, extractOrientation, oMap, oMapMirror,
      List.getD_cons_succ, List.getD_cons_zero]

/-- Witness for C5 at the two instances the spec names: rotate 0
without mirror yields code 1, rotate 1 with mirror yields the mirrored
table's index-1 entry. -/
theorem spec_c5_witness :
    2 ≤ ([255, 216] : List Nat).length ∧ (0 : Nat) < 4 ∧ (1 : Nat) < 4 ∧
    extractOrientation ((annotateFrame ([255, 216] :: [[1]]) 0 false).headD []) =
      (if false then oMapMirror.getD 0 0 else oMap.getD 0 0) ∧
    extractOrientation ((annotateFrame ([255, 216] :: [[1]]) 1 true).headD []) =
      (if true then oMapMirror.getD 1 0 else oMap.getD 1 0) :=
  ⟨by decide, by decide, by decide,
   spec_c5 [255, 216] [[1]] 0 false (by decide) (by decide),
   spec_c5 [255, 216] [[1]] 1 true (by decide) (by decide)⟩

/-- C6: annotation rewrites only the header chunk: the output has the
same number of chunks, its first chunk is the header chunk with the
orientation marker spliced in, and every chunk after the first is the
input chunk, byte for byte. -/
theorem spec_c6 (c : List Nat) (cs : List (List Nat)) (rotate : Nat) (mirror : Bool) :
    (annotateFrame (c :: cs) rotate mirror).length = (c :: cs).length ∧
    (annotateFrame (c :: cs) rotate mirror).headD []
      = addExifToJpeg c (orientations (selectOrientation rotate mirror)) ∧
    ∀ i, 1 ≤ i → (annotateFrame (c :: cs) rotate mirror).getD i [] = (c :: cs).getD i [] := by
  refine ⟨by simp [annotateFrame], rfl, ?_⟩
  intro i hi
  obtain ⟨j, rfl⟩ : ∃ j, i = j + 1 := ⟨i - 1, by omega⟩
  simp [annotateFrame]

/-- Witness for C6: the second chunk of a concrete annotated frame is
the second input chunk unchanged. -/
theorem spec_c6_witness :
    (annotateFrame ([255, 216] :: [[7, 8], [9]]) 2 true).getD 1 []
      = (([255, 216] :: [[7, 8], [9]]) : List (List Nat)).getD 1 [] :=
  (spec_c6 [255, 216] [[7, 8], [9]] 2 true).2.2 1 (by decide)

/-- C7: a video subscriber registered after any sequence of events
receives exactly the frames published after its registration and none
of the frames published before it. -/
theorem spec_c7 (es1 es2 : List StreamEvent) :
    (runDist (es1 ++ StreamEvent.register :: es2)).getD (runDist es1).length []
      = publishedFrames es2 := by
  have h1 : runDist (es1 ++ StreamEvent.register :: es2)
      = es2.foldl distStep (runDist es1 ++ [[]]) := by
    rw [runDist, List.foldl_append, List.foldl_cons]
    rfl
  rw [h1, foldl_distStep_getD es2 (runDist es1 ++ [[]]) (runDist es1).length (by simp)]
  rw [List.getD_append_right _ _ _ _ (le_refl _)]
  simp

/-- Rotate and mirror requests keep the rotate value inside the range
0..3. -/
theorem applyOps_lt :
    ∀ (ops : List SettingsOp) (c : CameraSettings), c.rotate < 4 → (applyOps ops c).rotate < 4
  | [], _, h => h
  | SettingsOp.rotate :: ops, c, _ => applyOps_lt ops (rotateStep c) (rotateStep_lt c)
  | SettingsOp.mirror :: ops, c, h => applyOps_lt ops (mirrorStep c) h

/-- C8: a rotate request sets rotate to (rotate + 1) mod 4, and the
invariant rotate in 0..3 is preserved by any sequence of rotate and
mirror requests in any order. -/
theorem spec_c8 (ops : List SettingsOp) (c : CameraSettings) (h : c.rotate < 4) :
    (rotateStep c).rotate = (c.rotate + 1) % 4 ∧ (applyOps ops c).rotate < 4 :=
  ⟨rfl, applyOps_lt ops c h⟩

/-- Witness for C8 on a concrete camera at the edge of the range and a
mixed request sequence. -/
theorem spec_c8_witness :
    (CameraSettings.mk 3 false true).rotate < 4 ∧
    ((rotateStep ⟨3, false, true⟩).rotate = ((CameraSettings.mk 3 false true).rotate + 1) % 4 ∧
     (applyOps [SettingsOp.rotate, SettingsOp.mirror, SettingsOp.rotate] ⟨3, false, true⟩).rotate < 4) :=
  ⟨by decide,
   spec_c8 [SettingsOp.rotate, SettingsOp.mirror, SettingsOp.rotate] ⟨3, false, true⟩ (by decide)⟩

/-- C9: stopping a run is idempotent — a second stop after a stop
changes nothing, a stop after the run already terminated changes
nothing — a stop emits no close event itself, and after a stop both
timers are cancelled. -/
theorem spec_c9 (s : RunState) (hinv : RunInv s) :
    stepTrigger (stepTrigger s RunTrigger.stop) RunTrigger.stop = stepTrigger s RunTrigger.stop ∧
    (stepTrigger s RunTrigger.stop).intervalActive = false ∧
    (stepTrigger s RunTrigger.stop).timeoutActive = false ∧
    (stepTrigger s RunTrigger.stop).closeEvents = s.closeEvents ∧
    (s.running = false → stepTrigger s RunTrigger.stop = s) := by
  obtain ⟨h1, h2⟩ := hinv
  by_cases hr : s.running
  · have hso : s.sockOpen = true := h2 hr
    simp [stepTrigger, cleanup, hr, hso]
  · have hf : s.running = false := by simpa using hr
    simp [stepTrigger, cleanup, hf, (h1 hf).1, (h1 hf).2]

/-- Witness for C9 at the armed initial run state. -/
theorem spec_c9_witness :
    RunInv initRun ∧
    (stepTrigger (stepTrigger initRun RunTrigger.stop) RunTrigger.stop
        = stepTrigger initRun RunTrigger.stop ∧
     (stepTrigger initRun RunTrigger.stop).intervalActive = false ∧
     (stepTrigger initRun RunTrigger.stop).timeoutActive = false ∧
     (stepTrigger initRun RunTrigger.stop).closeEvents = initRun.closeEvents ∧
     (initRun.running = false → stepTrigger initRun RunTrigger.stop = initRun)) :=
  ⟨⟨fun h => absurd h (by decide), fun _ => rfl⟩,
   spec_c9 initRun ⟨fun h => absurd h (by decide), fun _ => rfl⟩⟩

/-- C10: for any configuration respecting the rotate range invariant,
two consecutive mirror requests restore the entire configuration — the
device's mirror flag, its rotate and audio settings, and every other
device's settings — and four consecutive rotate requests restore it
likewise. -/
theorem spec_c10 (cfg : CameraConfig) (dev : String)
    (h : ∀ p ∈ cfg, p.2.rotate < 4) :
    mirrorReq dev (mirrorReq dev cfg) = cfg ∧
    rotateReq dev (rotateReq dev (rotateReq dev (rotateReq dev cfg))) = cfg :=
  ⟨mirrorReq_mirrorReq dev cfg, rotateReq_four dev cfg h⟩

/-- Witness for C10 on a two-camera configuration. -/
theorem spec_c10_witness :
    (∀ p ∈ ([("cam1", ⟨2, true, false⟩), ("cam2", ⟨0, false, true⟩)] : CameraConfig),
      p.2.rotate < 4) ∧
    (mirrorReq "cam1" (mirrorReq "cam1"
        [("cam1", ⟨2, true, false⟩), ("cam2", ⟨0, false, true⟩)])
      = [("cam1", ⟨2, true, false⟩), ("cam2", ⟨0, false, true⟩)] ∧
     rotateReq "cam1" (rotateReq "cam1" (rotateReq "cam1" (rotateReq "cam1"
        [("cam1", ⟨2, true, false⟩), ("cam2", ⟨0, false, true⟩)])))
      = [("cam1", ⟨2, true, false⟩), ("cam2", ⟨0, false, true⟩)]) :=
  ⟨by decide,
   spec_c10 [("cam1", ⟨2, true, false⟩), ("cam2", ⟨0, false, true⟩)] "cam1" (by decide)⟩
